import Mathlib

/-!
Verification of the moai-time gcode time estimator (`src/main.rs`).

The Rust source is shallowly embedded below.  Modelling conventions:

* `f64` arithmetic on positions, feedrates and the layer-change constant is
  modelled exactly over `ℚ` (every value appearing in the claims is a small
  dyadic rational on which `f64` arithmetic is exact).
* Move distances involve `f64::sqrt`, which is modelled over `ℝ` via
  `Real.sqrt`; the IEEE special values produced by division by a zero
  feedrate are modelled by the `F64` type (`finite`/`inf`/`negInf`/`nan`)
  with the IEEE rules for division and addition.
* `std::time::Duration` is modelled by a pair of naturals; the second
  component counts nanoseconds, exactly as in `Duration::new(secs, nanos)`.
* Input lines are embedded post-lexing as the inductive `GcodeLine`: a
  `;TIME:<t>` line with a validly parsed `u32`, a `;LAYER:<n>` line with a
  validly parsed `usize`, a `G0 `/`G1 ` move line as the list of its
  whitespace-separated tokens (each already split into its leading letter
  and parsed numeric value), or any other (ignored) line.  Integer width
  saturation (`u64`/`u32` casts) is modelled by `Int.toNat`, which agrees
  with Rust's saturating float-to-integer casts on every value the program
  produces below the type's maximum.
-/

namespace MoaiTime

/-- Model of Rust `std::time::Duration`: whole seconds plus a nanosecond
count.  `Duration::new` normalises `nanos ≥ 10^9` by carrying into the
seconds (the `u64` overflow panic is not modelled). -/
structure Duration where
  secs : ℕ
  nanos : ℕ
  deriving DecidableEq

/-- Rust `Duration::new(secs, nanos)`: the `nanos` argument counts
nanoseconds and is carried into `secs` when it reaches one billion. -/
def Duration.new (secs nanos : ℕ) : Duration :=
  ⟨secs + nanos / 1000000000, nanos % 1000000000⟩

/-- Rust `Duration::from_secs`. -/
def Duration.from_secs (t : ℕ) : Duration := ⟨t, 0⟩

/-- Rust `Duration` addition (`impl Add for Duration`): seconds add,
nanosecond parts add with carry at one billion. -/
def Duration.add (a b : Duration) : Duration :=
  Duration.new (a.secs + b.secs) (a.nanos + b.nanos)

/-- Rust `Duration::as_secs`. -/
def Duration.as_secs (d : Duration) : ℕ := d.secs

/-- Rust `Duration::subsec_millis`: the nanosecond part divided by 10^6. -/
def Duration.subsec_millis (d : Duration) : ℕ := d.nanos / 1000000

/-- The elapsed time a Rust `Duration` denotes, in seconds: the nanosecond
field contributes at scale 10^-9 (Rust std semantics of `Duration::new`). -/
def Duration.ratSeconds (d : Duration) : ℚ :=
  (d.secs : ℚ) + (d.nanos : ℚ) / 1000000000

/-- Model of the `f64` values flowing through the time computation: an
exact finite value, the two infinities, or NaN. -/
inductive F64 where
  | finite (x : ℝ)
  | inf
  | negInf
  | nan

/-- IEEE-754 addition on the `F64` model (exact on finite values): NaN is
absorbing, opposite infinities give NaN, an infinity absorbs finite
values. -/
def F64.add : F64 → F64 → F64
  | .nan, _ => .nan
  | _, .nan => .nan
  | .inf, .negInf => .nan
  | .negInf, .inf => .nan
  | .inf, _ => .inf
  | _, .inf => .inf
  | .negInf, _ => .negInf
  | _, .negInf => .negInf
  | .finite a, .finite b => .finite (a + b)

/-- IEEE-754 division of a finite `f64` by a finite `f64` (exact on the
quotient): division by zero yields `inf`, `negInf` or `nan` according to
the sign of the dividend. -/
noncomputable def f64Div (a b : ℝ) : F64 :=
  if b = 0 then (if a < 0 then .negInf else if a = 0 then .nan else .inf)
  else .finite (a / b)

/-- Rust `f64::trunc` on a rational: round toward zero. -/
def qTrunc (q : ℚ) : ℤ :=
  if 0 ≤ q then ⌊q⌋ else ⌈q⌉

/-- Rust `f64::fract` on a rational: `self - self.trunc()`. -/
def qFract (q : ℚ) : ℚ := q - qTrunc q

/-- Rust `f64::trunc` on a real: round toward zero. -/
noncomputable def realTrunc (x : ℝ) : ℤ :=
  if 0 ≤ x then ⌊x⌋ else ⌈x⌉

/-- Embeds `struct GcodeLineInfo` (main.rs lines 12–16): cumulative travel
distance (uom `Length`, SI meters) and cumulative move time (uom `Time`,
SI seconds) of one layer.  `Default` gives zero for both. -/
structure GcodeLineInfo where
  distance : ℝ
  time : F64

instance : Inhabited GcodeLineInfo := ⟨⟨0, .finite 0⟩⟩

/-- Embeds `struct GcodeInfo` (main.rs lines 18–22). -/
structure GcodeInfo where
  slicer_estimated_duration : Option Duration
  layers : List GcodeLineInfo

/-- Embeds `GcodeInfo::layer_change_time` (main.rs lines 25–29):
`t = 9.5 s * layers.len()`, then
`Duration::new(t.floor() as u64, (t.fract() * 1_000_000.0).floor() as u32)`.
The second argument of `Duration::new` counts nanoseconds. -/
def layer_change_time (g : GcodeInfo) : Duration :=
  let secs : ℚ := 19 / 2 * (g.layers.length : ℚ)
  Duration.new (⌊secs⌋.toNat) ((⌊qFract secs * 1000000⌋).toNat)

/-- Embeds `GcodeInfo::laser_time` (main.rs lines 31–35): sum the per-layer
`f64` times (fold of IEEE addition starting from `0.0`), then
`Duration::new(t.floor() as u64, (t.fract() * 1_000_000.0).floor() as u32)`
with Rust's saturating casts on the special values (`inf` floors to
`u64::MAX`; a NaN fractional part casts to `0`). -/
noncomputable def laser_time (g : GcodeInfo) : Duration :=
  match (g.layers.map (fun l => l.time)).foldl F64.add (.finite 0) with
  | .finite x => Duration.new (⌊x⌋.toNat) ((⌊(x - (realTrunc x : ℝ)) * 1000000⌋).toNat)
  | .inf => Duration.new (2 ^ 64 - 1) 0
  | .negInf => Duration.new 0 0
  | .nan => Duration.new 0 0

/-- Embeds `GcodeInfo::total_time` (main.rs lines 37–39). -/
noncomputable def total_time (g : GcodeInfo) : Duration :=
  Duration.add (layer_change_time g) (laser_time g)

/-- One whitespace-separated token of a `G0 `/`G1 ` move line, after the
`part.split_at(1)` dispatch of main.rs lines 83–96: an `X`, `Y` or `F`
token carrying its parsed `f64` value, or any other token (ignored). -/
inductive MovePart where
  | X (v : ℚ)
  | Y (v : ℚ)
  | F (v : ℚ)
  | skip
  deriving DecidableEq

/-- One input line, post-lexing (main.rs lines 59–115): a `;TIME:<t>` line
with its parsed `u32`, a `;LAYER:<n>` line with its parsed `usize`, a
`G0 `/`G1 ` move line with its token list, or any other (ignored) line. -/
inductive GcodeLine where
  | timeLine (t : ℕ)
  | layerLine (n : ℕ)
  | moveLine (parts : List MovePart)
  | other
  deriving DecidableEq

/-- The feedrate stored for a token `F<v>` (main.rs lines 85–91): the code
multiplies the raw value by `60.0` and tags the product
`micrometer_per_second`; uom stores velocities in SI `m/s`, so the stored
value is `v * 60 * 10^-6`. -/
def fTokenVelocity (v : ℚ) : ℚ := v * 60 * (1 / 1000000)

/-- The `for part in line.split_whitespace()` loop of main.rs lines 80–96:
fold over the tokens, recording the last `X`, `Y` and `F` values seen
(`F` values already converted by `fTokenVelocity`). -/
def scanParts (parts : List MovePart) : Option ℚ × Option ℚ × Option ℚ :=
  parts.foldl
    (fun acc p =>
      match p with
      | .F v => (acc.1, acc.2.1, some (fTokenVelocity v))
      | .X v => (some v, acc.2.1, acc.2.2)
      | .Y v => (acc.1, some v, acc.2.2)
      | .skip => acc)
    (none, none, none)

/-- Embeds the transient parser head state of `parse_file`
(main.rs lines 43–47): the accumulating `GcodeInfo`, the current X and Y
positions (raw `f64` millimeter values), the current feedrate (uom
`Velocity`, SI `m/s`) and the current layer index. -/
structure ParserState where
  gcode_info : GcodeInfo
  current_x : ℚ
  current_y : ℚ
  current_feedrate : ℚ
  current_layer : Option ℕ

/-- The new `(x, y, feedrate)` triple of a move line (main.rs lines
100–102): each `unwrap_or` keeps the previous sticky value when the line
carries no such token. -/
def newXYF (st : ParserState) (parts : List MovePart) : ℚ × ℚ × ℚ :=
  let scanned := scanParts parts
  (scanned.1.getD st.current_x, scanned.2.1.getD st.current_y,
   scanned.2.2.getD st.current_feedrate)

/-- The move's `delta_x` (main.rs line 103): new X minus old X, tagged
`millimeter`, i.e. scaled by `10^-3` into SI meters. -/
def moveDeltaX (st : ParserState) (parts : List MovePart) : ℚ :=
  ((newXYF st parts).1 - st.current_x) * (1 / 1000)

/-- The move's `delta_y` (main.rs line 104). -/
def moveDeltaY (st : ParserState) (parts : List MovePart) : ℚ :=
  ((newXYF st parts).2.1 - st.current_y) * (1 / 1000)

/-- The move's `this_distance` (main.rs line 105):
`((delta_x * delta_x) + (delta_y * delta_y)).sqrt()`. -/
noncomputable def moveDistance (st : ParserState) (parts : List MovePart) : ℝ :=
  Real.sqrt ((moveDeltaX st parts : ℝ) * (moveDeltaX st parts : ℝ) +
    (moveDeltaY st parts : ℝ) * (moveDeltaY st parts : ℝ))

/-- The move's `this_time` (main.rs line 106):
`this_distance / current_feedrate`, an IEEE `f64` division. -/
noncomputable def moveTime (st : ParserState) (parts : List MovePart) : F64 :=
  f64Div (moveDistance st parts) ((newXYF st parts).2.2 : ℝ)

/-- Net effect of the `loop { match layers.get_mut(layer_index) ... }` of
main.rs lines 107–112: push zero-valued `Default` records until index `i`
exists. -/
noncomputable def growTo (layers : List GcodeLineInfo) (i : ℕ) : List GcodeLineInfo :=
  if i < layers.length then layers
  else layers ++ List.replicate (i + 1 - layers.length) default

/-- Embeds one iteration of the line loop of `parse_file`
(main.rs lines 57–116). -/
noncomputable def stepLine (st : ParserState) (l : GcodeLine) : ParserState :=
  match l with
  | .timeLine t =>
      if t ≠ 6666 then
        { st with gcode_info :=
            { st.gcode_info with
                slicer_estimated_duration := some (Duration.from_secs t) } }
      else st
  | .layerLine n => { st with current_layer := some n }
  | .moveLine parts =>
      match st.current_layer with
      | none => st
      | some layer_index =>
          let nxt := newXYF st parts
          let this_distance := moveDistance st parts
          let this_time := moveTime st parts
          let grown := growTo st.gcode_info.layers layer_index
          let old_record := grown.getD layer_index default
          { st with
              current_x := nxt.1
              current_y := nxt.2.1
              current_feedrate := nxt.2.2
              gcode_info :=
                { st.gcode_info with
                    layers := grown.set layer_index
                      { distance := old_record.distance + this_distance,
                        time := F64.add old_record.time this_time } } }
  | .other => st

/-- The initial head state of `parse_file` (main.rs lines 43–47): default
`GcodeInfo`, origin position, feedrate `Velocity::new::<millimeter_per_second>(0.0)`
(i.e. zero), no current layer. -/
def initState : ParserState :=
  { gcode_info := { slicer_estimated_duration := none, layers := [] },
    current_x := 0, current_y := 0, current_feedrate := 0,
    current_layer := none }

/-- Embeds `parse_file` (main.rs lines 42–119) on an already-lexed line
sequence: fold the per-line step over the lines.  The source's error paths
are I/O failures and integer/float parse failures, both of which the lexed
representation has already discharged; in particular no error path
examines the feedrate. -/
noncomputable def parse_file (lines : List GcodeLine) : GcodeInfo :=
  (lines.foldl stepLine initState).gcode_info

/-- Rust's `{:>04}` format of a natural number: decimal digits left-padded
with `0` to width 4 (the sign-aware zero-pad flag). -/
def pad4 (n : ℕ) : String :=
  let s := toString n
  String.mk (List.replicate (4 - s.length) '0') ++ s

/-- Embeds `impl fmt::Display for PrettyDuration` (main.rs lines 123–173):
split `as_secs()` into days/hours/minutes/seconds by the fixed ratios,
take `subsec_millis()`, and dispatch on the exact tuple patterns of the
source `match`, in source order.  The two guarded arms
(`(0,0,0,0) if millis == 0` and `(0,0,0,1) if millis == 0`) fall through
to the `(0, 0, 0, s)` arm when the guard fails, which the `if` in the
corresponding Lean arms reproduces. -/
def prettyFmt (dur : Duration) : String :=
  let total_secs := dur.as_secs
  let days := total_secs / 86400
  let rest := total_secs % 86400
  let hours := rest / 3600
  let rest2 := rest % 3600
  let minutes := rest2 / 60
  let seconds := rest2 % 60
  let millis := dur.subsec_millis
  match days, hours, minutes, seconds with
  | 0, 0, 0, 0 =>
      if millis = 0 then "0 seconds"
      else toString (0 : ℕ) ++ "." ++ pad4 millis ++ " seconds"
  | 0, 0, 0, 1 =>
      if millis = 0 then "1 second"
      else toString (1 : ℕ) ++ "." ++ pad4 millis ++ " seconds"
  | 0, 0, 0, s => toString s ++ "." ++ pad4 millis ++ " seconds"
  | 0, 0, 1, 0 => "1 minute"
  | 0, 0, 1, 1 => "1 minute and 1 second"
  | 0, 0, 1, s => "1 minute and " ++ toString s ++ " seconds"
  | 0, 0, m, 0 => toString m ++ " minutes"
  | 0, 0, m, 1 => toString m ++ " minutes 1 second"
  | 0, 0, m, s => toString m ++ " minutes and " ++ toString s ++ " seconds"
  | 0, 1, 0, _ => "1 hour"
  | 0, 1, 1, _ => "1 hour and 1 minute"
  | 0, 1, m, _ => "1 hour and " ++ toString m ++ " minutes"
  | 0, h, 0, _ => toString h ++ " hours"
  | 0, h, 1, _ => toString h ++ " hours and 1 minute"
  | 0, h, m, _ => toString h ++ " hours and " ++ toString m ++ " minutes"
  | 1, 0, 0, _ => "1 day"
  | 1, 0, 1, _ => "1 day and 1 minute"
  | 1, 0, m, _ => "1 day and " ++ toString m ++ " minutes"
  | 1, 1, 0, _ => "1 day and 1 hour"
  | 1, 1, 1, _ => "1 day, 1 hour, and 1 minute"
  | 1, 1, m, _ => "1 day, 1 hour, and " ++ toString m ++ " minutes"
  | 1, h, 0, _ => "1 day and " ++ toString h ++ " hours"
  | 1, h, 1, _ => "1 day, " ++ toString h ++ " hours, and 1 minute"
  | 1, h, m, _ => "1 day, " ++ toString h ++ " hours, and " ++ toString m ++ " minutes"
  | d, 0, 0, _ => toString d ++ " days"
  | d, 0, 1, _ => toString d ++ " days and 1 minute"
  | d, 0, m, _ => toString d ++ " days and " ++ toString m ++ " minutes"
  | d, 1, 0, _ => toString d ++ " days and 1 hour"
  | d, 1, 1, _ => toString d ++ " days, 1 hour, and 1 minute"
  | d, 1, m, _ => toString d ++ " days, 1 hour, and " ++ toString m ++ " minutes"
  | d, h, 0, _ => toString d ++ " days and " ++ toString h ++ " hours"
  | d, h, 1, _ => toString d ++ " days, " ++ toString h ++ " hours, and 1 minute"
  | d, h, m, _ =>
      toString d ++ " days, " ++ toString h ++ " hours, and " ++ toString m ++ " minutes"

/-- Helper: pushing default records until index `i` exists makes index `i`
valid. -/
theorem lt_length_growTo (l : List GcodeLineInfo) (i : ℕ) : i < (growTo l i).length := by
  unfold growTo
  split
  · assumption
  · simp only [List.length_append, List.length_replicate]
    omega

/-- Claim C1 (code bug): the claim asserts the parser sets the feedrate to
the per-minute value v divided by 60, and that the source conversion
(multiply v by 60, then tag micrometer-per-second) is numerically
equivalent to that division.  It is not: the stored SI velocity equals
3600 times the value of v/60 micrometers-per-second, and for every
nonzero v it differs from v/60 micrometers-per-second and from v/60
millimeters-per-second alike. -/
theorem fToken_times_sixty_not_div_sixty (v : ℚ) :
    fTokenVelocity v = 3600 * (v / 60 * (1 / 1000000)) ∧
    (v ≠ 0 → fTokenVelocity v ≠ v / 60 * (1 / 1000000) ∧
      fTokenVelocity v ≠ v / 60 * (1 / 1000)) := by
  constructor
  · unfold fTokenVelocity; ring
  · intro hv
    constructor
    · unfold fTokenVelocity
      intro h
      apply hv
      field_simp at h
      linarith
    · unfold fTokenVelocity
      intro h
      apply hv
      field_simp at h
      linarith

/-- Claim C1 witness: for the token F60 the stored feedrate is 3600
micrometers-per-second (3600 * 10^-6 in SI), while 60/60 = 1 per-minute
divided by sixty would be 1 micrometer-per-second, or 1 millimeter-per-second
under the millimeter reading of the unit. -/
theorem fToken_times_sixty_not_div_sixty_witness :
    fTokenVelocity 60 = 3600 * (60 / 60 * (1 / 1000000)) ∧
    fTokenVelocity 60 ≠ 60 / 60 * (1 / 1000000) ∧
    fTokenVelocity 60 ≠ 60 / 60 * (1 / 1000) :=
  ⟨(fToken_times_sixty_not_div_sixty 60).1,
   (fToken_times_sixty_not_div_sixty 60).2 (by norm_num)⟩

/-- Claim C2 (code bug): with one layer record, `layer_change_time` builds
`Duration::new(9, 500000)`; the second argument of `Duration::new` counts
nanoseconds, so the returned duration is 9 + 1/2000 seconds, not the
claimed 9.5 seconds; with three records it is 28 + 1/2000 seconds, not
28.5. -/
theorem layer_change_time_micro_for_nano :
    layer_change_time { slicer_estimated_duration := none, layers := [default] } = ⟨9, 500000⟩ ∧
    Duration.ratSeconds ⟨9, 500000⟩ = 9 + 1 / 2000 ∧
    (9 + 1 / 2000 : ℚ) ≠ 19 / 2 ∧
    layer_change_time { slicer_estimated_duration := none, layers := [default, default, default] } = ⟨28, 500000⟩ ∧
    Duration.ratSeconds ⟨28, 500000⟩ ≠ 57 / 2 := by
  refine ⟨?_, ?_, by norm_num, ?_, ?_⟩
  · simp only [layer_change_time, Duration.new, qFract, qTrunc, List.length_singleton,
      Nat.cast_one]
    norm_num
    decide
  · norm_num [Duration.ratSeconds]
  · simp only [layer_change_time, Duration.new, qFract, qTrunc, List.length_cons,
      List.length_nil]
    norm_num
    decide
  · norm_num [Duration.ratSeconds]

/-- Claim C3 counterexample: the duration of exactly 1.5 seconds has
`subsec_millis` 500, which the formatter zero-pads to four digits,
printing "1.0500 seconds" rather than the claimed "1.5000 seconds";
moreover the zero duration prints "0 seconds" although its whole-second
count is not 1. -/
theorem fractional_seconds_counterexample :
    prettyFmt ⟨1, 500000000⟩ = "1.0500 seconds" ∧
    prettyFmt ⟨1, 500000000⟩ ≠ "1.5000 seconds" ∧
    prettyFmt ⟨0, 0⟩ = "0 seconds" :=
  ⟨by decide, by decide, by decide⟩

/-- Claim C3 (amended): for every duration under one minute, whenever the
whole-second count together with a zero millisecond part is neither
exactly 0 nor exactly 1, the formatter renders the whole-second count, a
dot, and the sub-second milliseconds zero-padded to 4 digits; in
particular exactly 1.5 seconds renders as "1.0500 seconds". -/
theorem fractional_seconds_display (dur : Duration) (h1 : dur.secs < 60)
    (h2 : ¬(dur.secs = 0 ∧ dur.subsec_millis = 0))
    (h3 : ¬(dur.secs = 1 ∧ dur.subsec_millis = 0)) :
    prettyFmt dur = toString dur.secs ++ "." ++ pad4 dur.subsec_millis ++ " seconds" := by
  obtain ⟨s, ns⟩ := dur
  simp only [Duration.subsec_millis] at h2 h3
  simp only [Duration.secs] at h1 h2 h3
  have e1 : s / 86400 = 0 := Nat.div_eq_of_lt (by omega)
  have e2 : s % 86400 = s := Nat.mod_eq_of_lt (by omega)
  have e3 : s / 3600 = 0 := Nat.div_eq_of_lt (by omega)
  have e4 : s % 3600 = s := Nat.mod_eq_of_lt (by omega)
  have e5 : s / 60 = 0 := Nat.div_eq_of_lt (by omega)
  have e6 : s % 60 = s := Nat.mod_eq_of_lt (by omega)
  simp only [prettyFmt, Duration.as_secs, Duration.subsec_millis, e1, e2, e3, e4, e5, e6]
  rcases s with _ | _ | m
  · have hm : ¬ ns / 1000000 = 0 := fun h => h2 ⟨rfl, h⟩
    simp only [if_neg hm]
  · have hm : ¬ ns / 1000000 = 0 := fun h => h3 ⟨rfl, h⟩
    simp only [if_neg hm]
  · rfl

/-- Claim C3 witness: the amended rule applied at exactly 1.5 seconds,
where the whole-second count is 1 and the millisecond part is 500. -/
theorem fractional_seconds_display_witness :
    prettyFmt ⟨1, 500000000⟩ = "1.0500 seconds" := by
  have h := fractional_seconds_display ⟨1, 500000000⟩ (by decide) (by decide) (by decide)
  rw [h]
  decide

/-- Claim C4: for every parse result, `total_time` equals
`layer_change_time` plus `laser_time`, exactly and by construction,
regardless of the parsed line sequence. -/
theorem total_time_is_sum (lines : List GcodeLine) :
    total_time (parse_file lines) =
      Duration.add (layer_change_time (parse_file lines)) (laser_time (parse_file lines)) := rfl

/-- Claim C5 (code bug): the formatter arm for two or more minutes with a
whole-second remainder of 1 prints the two visible units with no joining
"and": at 121 seconds the output is "2 minutes 1 second", not the
"2 minutes and 1 second" the joining rule requires. -/
theorem minutes_one_second_missing_and :
    prettyFmt ⟨121, 0⟩ = "2 minutes 1 second" ∧
    prettyFmt ⟨121, 0⟩ ≠ "2 minutes and 1 second" :=
  ⟨by decide, by decide⟩

/-- Claim C6: the formatter maps the whole-second durations 0, 1, 61,
3661, 90000 and 176461 to exactly the literal strings the spec lists. -/
theorem formatter_literal_cases :
    prettyFmt ⟨0, 0⟩ = "0 seconds" ∧
    prettyFmt ⟨1, 0⟩ = "1 second" ∧
    prettyFmt ⟨61, 0⟩ = "1 minute and 1 second" ∧
    prettyFmt ⟨3661, 0⟩ = "1 hour and 1 minute" ∧
    prettyFmt ⟨90000, 0⟩ = "1 day and 1 hour" ∧
    prettyFmt ⟨176461, 0⟩ = "2 days, 1 hour, and 1 minute" :=
  ⟨by decide, by decide, by decide, by decide, by decide, by decide⟩

/-- Claim C7: layer records are appended only while processing a move
line: TIME, LAYER and unrecognized lines leave the layer table unchanged;
a move on layer i with the table no longer than i grows the table to
exactly i + 1 records, every gap record between the old length and i is
the zero-valued default, and `layer_change_time` is determined by the
count i + 1. -/
theorem layers_created_only_by_moves (st : ParserState) (t n : ℕ)
    (parts : List MovePart) (i : ℕ) :
    ((stepLine st (.timeLine t)).gcode_info.layers = st.gcode_info.layers ∧
     (stepLine st (.layerLine n)).gcode_info.layers = st.gcode_info.layers ∧
     (stepLine st .other).gcode_info.layers = st.gcode_info.layers) ∧
    (st.current_layer = some i → st.gcode_info.layers.length ≤ i →
      ((stepLine st (.moveLine parts)).gcode_info.layers.length = i + 1 ∧
       (∀ j, st.gcode_info.layers.length ≤ j → j < i →
         (stepLine st (.moveLine parts)).gcode_info.layers.getD j default = default) ∧
       layer_change_time (stepLine st (.moveLine parts)).gcode_info =
         layer_change_time { slicer_estimated_duration := none, layers := List.replicate (i + 1) default })) := by
  constructor
  · refine ⟨?_, ?_, ?_⟩
    · by_cases ht : t = 6666 <;> simp [stepLine, ht]
    · simp [stepLine]
    · simp [stepLine]
  · intro hl hlen
    have hnl : ¬ i < st.gcode_info.layers.length := by omega
    have hlength : (stepLine st (.moveLine parts)).gcode_info.layers.length = i + 1 := by
      simp only [stepLine, hl]
      rw [List.length_set]
      unfold growTo
      rw [if_neg hnl]
      simp only [List.length_append, List.length_replicate]
      omega
    refine ⟨hlength, ?_, ?_⟩
    · intro j hj1 hj2
      have hne : i ≠ j := by omega
      simp only [stepLine, hl, List.getD, List.get?_eq_getElem?]
      rw [List.getElem?_set_ne hne]
      unfold growTo
      rw [if_neg hnl]
      rw [List.getElem?_append_right hj1]
      have hrep : j - st.gcode_info.layers.length < i + 1 - st.gcode_info.layers.length := by omega
      simp [List.getElem?_replicate, hrep]
    · unfold layer_change_time
      rw [hlength]
      simp

/-- Claim C7 witness: from an empty table and current layer 3, one move
produces a table of exactly 4 records with the gap record at index 1
zero-valued, while a LAYER line alone appends nothing. -/
theorem layers_created_only_by_moves_witness :
    (stepLine ⟨⟨none, []⟩, 0, 0, 0, some 3⟩ (.moveLine [.X 1])).gcode_info.layers.length = 3 + 1 ∧
    (stepLine ⟨⟨none, []⟩, 0, 0, 0, some 3⟩ (.moveLine [.X 1])).gcode_info.layers.getD 1 default = default ∧
    (stepLine ⟨⟨none, []⟩, 0, 0, 0, some 3⟩ (.layerLine 7)).gcode_info.layers =
      (⟨⟨none, []⟩, 0, 0, 0, some 3⟩ : ParserState).gcode_info.layers := by
  obtain ⟨h1, h2⟩ := layers_created_only_by_moves ⟨⟨none, []⟩, 0, 0, 0, some 3⟩ 0 7 [.X 1] 3
  have h3 := h2 rfl (by decide)
  exact ⟨h3.1, h3.2.1 1 (by decide) (by decide), h1.2.1⟩

/-- Claim C8: a TIME line carrying the sentinel 6666 leaves the whole
parser state unchanged (so the slicer-declared duration stays absent if
never set), and any other value t sets, overwriting any previous value,
the slicer-declared duration to exactly t seconds while leaving the rest
of the state unchanged. -/
theorem time_directive_sentinel (st : ParserState) (t : ℕ) :
    stepLine st (.timeLine 6666) = st ∧
    (t ≠ 6666 →
      (stepLine st (.timeLine t)).gcode_info.slicer_estimated_duration =
        some (Duration.from_secs t) ∧
      (stepLine st (.timeLine t)).gcode_info.layers = st.gcode_info.layers ∧
      (stepLine st (.timeLine t)).current_x = st.current_x ∧
      (stepLine st (.timeLine t)).current_y = st.current_y ∧
      (stepLine st (.timeLine t)).current_feedrate = st.current_feedrate ∧
      (stepLine st (.timeLine t)).current_layer = st.current_layer) := by
  constructor
  · simp [stepLine]
  · intro ht
    simp [stepLine, ht]

/-- Claim C8 witness: on a state whose slicer-declared duration is 7
seconds, a TIME 6666 line changes nothing, and a TIME 5 line overwrites
the duration with 5 seconds. -/
theorem time_directive_sentinel_witness :
    stepLine ⟨⟨some ⟨7, 0⟩, []⟩, 1, 2, 3, some 4⟩ (.timeLine 6666) =
      (⟨⟨some ⟨7, 0⟩, []⟩, 1, 2, 3, some 4⟩ : ParserState) ∧
    (stepLine ⟨⟨some ⟨7, 0⟩, []⟩, 1, 2, 3, some 4⟩ (.timeLine 5)).gcode_info.slicer_estimated_duration =
      some (Duration.from_secs 5) :=
  ⟨(time_directive_sentinel ⟨⟨some ⟨7, 0⟩, []⟩, 1, 2, 3, some 4⟩ 5).1,
   ((time_directive_sentinel ⟨⟨some ⟨7, 0⟩, []⟩, 1, 2, 3, some 4⟩ 5).2 (by decide)).1⟩

/-- Claim C9: a move line processed while no layer marker has been seen
(current layer absent) is skipped entirely: the parser state, including
the X and Y positions, the feedrate and the layer table, is returned
unchanged, so the move contributes to no total. -/
theorem moves_before_first_layer_skipped (st : ParserState) (parts : List MovePart)
    (h : st.current_layer = none) : stepLine st (.moveLine parts) = st := by
  simp [stepLine, h]

/-- Claim C9 witness: on the initial state a move line carrying X and F
tokens changes nothing. -/
theorem moves_before_first_layer_skipped_witness :
    stepLine ⟨⟨none, []⟩, 0, 0, 0, none⟩ (.moveLine [.X 5, .F 100]) =
      (⟨⟨none, []⟩, 0, 0, 0, none⟩ : ParserState) :=
  moves_before_first_layer_skipped _ _ rfl

/-- Claim C10: the initial feedrate of the parser is zero and no code
path checks it before dividing; a counted move whose effective feedrate
is zero divides the move distance by zero, yielding an infinite time for
a nonzero displacement and NaN for a zero displacement, and this
non-finite value is added to the time record of the current layer rather
than reported as a failure. -/
theorem zero_feedrate_silent (st : ParserState) (parts : List MovePart) (i : ℕ)
    (hl : st.current_layer = some i)
    (hf : (newXYF st parts).2.2 = 0) :
    initState.current_feedrate = 0 ∧
    ((moveDeltaX st parts ≠ 0 ∨ moveDeltaY st parts ≠ 0) → moveTime st parts = .inf) ∧
    ((moveDeltaX st parts = 0 ∧ moveDeltaY st parts = 0) → moveTime st parts = .nan) ∧
    (stepLine st (.moveLine parts)).gcode_info.layers.getD i default =
      { distance := ((growTo st.gcode_info.layers i).getD i default).distance +
          moveDistance st parts,
        time := F64.add ((growTo st.gcode_info.layers i).getD i default).time
          (moveTime st parts) } := by
  have hsqnn : (0:ℝ) ≤ moveDistance st parts := Real.sqrt_nonneg _
  refine ⟨rfl, ?_, ?_, ?_⟩
  · intro h
    unfold moveTime f64Div
    rw [hf]
    rw [Rat.cast_zero, if_pos rfl]
    have hpos : 0 < moveDistance st parts := by
      unfold moveDistance
      apply Real.sqrt_pos.mpr
      rcases h with h | h
      · have hx : (0:ℝ) < (moveDeltaX st parts : ℝ) * (moveDeltaX st parts : ℝ) := by
          apply mul_self_pos.mpr
          exact_mod_cast h
        nlinarith [mul_self_nonneg ((moveDeltaY st parts : ℝ))]
      · have hy : (0:ℝ) < (moveDeltaY st parts : ℝ) * (moveDeltaY st parts : ℝ) := by
          apply mul_self_pos.mpr
          exact_mod_cast h
        nlinarith [mul_self_nonneg ((moveDeltaX st parts : ℝ))]
    rw [if_neg (by linarith), if_neg (by linarith)]
  · intro h
    obtain ⟨hx, hy⟩ := h
    unfold moveTime f64Div
    rw [hf]
    rw [Rat.cast_zero, if_pos rfl]
    have hz : moveDistance st parts = 0 := by
      unfold moveDistance
      rw [hx, hy]
      simp
    rw [if_neg (by linarith), if_pos hz]
  · simp only [stepLine, hl, List.getD, List.get?_eq_getElem?]
    rw [List.getElem?_set_eq_of_lt _ (lt_length_growTo _ _)]
    rfl

/-- Claim C10 witness: from the initial zero feedrate on layer 0, a move
to X = 3 gets an infinite time and a stationary move gets NaN. -/
theorem zero_feedrate_silent_witness :
    moveTime ⟨⟨none, []⟩, 0, 0, 0, some 0⟩ [.X 3] = .inf ∧
    moveTime ⟨⟨none, []⟩, 0, 0, 0, some 0⟩ [] = .nan := by
  constructor
  · exact (zero_feedrate_silent ⟨⟨none, []⟩, 0, 0, 0, some 0⟩ [.X 3] 0 rfl rfl).2.1
      (Or.inl (by norm_num [moveDeltaX, newXYF, scanParts]))
  · exact (zero_feedrate_silent ⟨⟨none, []⟩, 0, 0, 0, some 0⟩ [] 0 rfl rfl).2.2.1
      ⟨by norm_num [moveDeltaX, newXYF, scanParts], by norm_num [moveDeltaY, newXYF, scanParts]⟩

end MoaiTime
